import Mathlib

set_option linter.unnecessarySimpa false

/-!
Shallow embedding of the siteguard WAF (src/siteguard_app.py, src/database.py).

Timestamps are modelled as integers (seconds).  `time.time()` and
`datetime.datetime.now()` values are passed explicitly as a `now` argument;
`datetime.timedelta(minutes=m)` becomes `60 * m` seconds.

The SQLite tables become plain lists: `blocked_ips` is a list of
`BlockRecord` (the `ip_address` column is the primary key, so the insert
helper removes any row with the same key, mirroring INSERT OR REPLACE)
and `suspicious_logs` is an append-only list of `SuspiciousEvent`.

Persistence faults are modelled by an optional `FailPoint` argument on each
database helper: `FailPoint.query` stands for a `sqlite3.Error` raised by a
cursor operation or commit after the connection was bound, which the
`except sqlite3.Error` clause catches; `FailPoint.connect` stands for a
`sqlite3.Error` raised by `sqlite3.connect` itself.  In the latter case the
`except` clause runs, but the `finally: if conn:` clause then references the
local variable `conn`, which was never assigned, so Python raises an
`UnboundLocalError` that propagates to the caller; this is modelled as the
result `Except.error PyErr.unboundLocal`.  With no fault the helpers follow
the success path exactly.
-/

namespace Siteguard

/-- A row of the `blocked_ips` table (`ip_address` is the primary key). -/
structure BlockRecord where
  ip_address : String
  blocked_until : Int
  reason : String
deriving DecidableEq

/-- A row of the `suspicious_logs` table. -/
structure SuspiciousEvent where
  ip_address : String
  timestamp : Int
  reason : String
  request_path : String
deriving DecidableEq

/-- The two SQLite tables created by `database.init_db`. -/
structure DBState where
  blocked_ips : List BlockRecord
  suspicious_logs : List SuspiciousEvent
deriving DecidableEq

/-- Where inside a database helper a `sqlite3.Error` is raised:
at the `sqlite3.connect` call, or at a cursor/commit operation after
the connection was bound. -/
inductive FailPoint
  | connect
  | query
deriving DecidableEq

/-- The only uncaught exception the database helpers can produce:
the `UnboundLocalError` raised by `finally: if conn:` when
`sqlite3.connect` itself failed and `conn` was never assigned. -/
inductive PyErr
  | unboundLocal
deriving DecidableEq

/-- Success path of `database.log_suspicious_activity`: one INSERT into
`suspicious_logs`. -/
def log_suspicious_activity_run (ip reason path : String) (now : Int)
    (db : DBState) : DBState :=
  { db with suspicious_logs := db.suspicious_logs ++ [⟨ip, now, reason, path⟩] }

/-- `database.log_suspicious_activity` with fault injection.  A `query`
fault is caught by `except sqlite3.Error` (the write is dropped, a message
is printed); a `connect` fault escapes as `UnboundLocalError`. -/
def log_suspicious_activity (fault : Option FailPoint) (ip reason path : String)
    (now : Int) (db : DBState) : DBState × Except PyErr Unit :=
  match fault with
  | some .connect => (db, .error .unboundLocal)
  | some .query => (db, .ok ())
  | none => (log_suspicious_activity_run ip reason path now db, .ok ())

/-- `database.remove_expired_block`: DELETE FROM blocked_ips WHERE
ip_address = ip (success path). -/
def remove_expired_block (ip : String) (db : DBState) : DBState :=
  { db with blocked_ips := db.blocked_ips.filter (fun r => r.ip_address != ip) }

/-- Success path of `database.is_ip_blocked`: SELECT the row for `ip`
(at most one exists, `ip_address` being the primary key); if its
`blocked_until` is still in the future the IP is blocked, otherwise the
expired row is removed via `remove_expired_block` and the IP is not
blocked. -/
def is_ip_blocked_run (ip : String) (now : Int) (db : DBState) :
    DBState × Bool :=
  match db.blocked_ips.find? (fun r => r.ip_address == ip) with
  | none => (db, false)
  | some r =>
    if now < r.blocked_until then (db, true)
    else (remove_expired_block ip db, false)

/-- `database.is_ip_blocked` with fault injection.  A `query` fault is
caught and the function falls through to its `is_blocked = False` default
(fail-open); a `connect` fault escapes as `UnboundLocalError`. -/
def is_ip_blocked (fault : Option FailPoint) (ip : String) (now : Int)
    (db : DBState) : DBState × Except PyErr Bool :=
  match fault with
  | some .connect => (db, .error .unboundLocal)
  | some .query => (db, .ok false)
  | none =>
    let r := is_ip_blocked_run ip now db
    (r.1, .ok r.2)

/-- `database.block_ip` with fault injection.  On the success path it
upserts the `blocked_ips` row for `ip` (INSERT OR REPLACE: every row with
the same primary key is replaced) with `blocked_until = now + 60 * minutes`
and then calls `log_suspicious_activity` with reason `"IP BLOCKED: {reason}"`
and path `"N/A"`; `faultLog` is the fault of that inner call.  A `query`
fault in `block_ip` itself is caught before the log call is reached, so
nothing is committed; a `connect` fault escapes as `UnboundLocalError`. -/
def block_ip (fault faultLog : Option FailPoint) (ip reason : String)
    (minutes now : Int) (db : DBState) : DBState × Except PyErr Unit :=
  match fault with
  | some .connect => (db, .error .unboundLocal)
  | some .query => (db, .ok ())
  | none =>
    let db1 : DBState :=
      { db with blocked_ips :=
          ⟨ip, now + 60 * minutes, reason⟩ ::
            db.blocked_ips.filter (fun r => r.ip_address != ip) }
    log_suspicious_activity faultLog ip ("IP BLOCKED: " ++ reason) "N/A" now db1

/-- Success path of `database.block_ip`. -/
def block_ip_run (ip reason : String) (minutes now : Int) (db : DBState) :
    DBState :=
  (block_ip none none ip reason minutes now db).1

/-! Configuration constants of siteguard_app.py. -/

def RATE_LIMIT_REQUESTS : Nat := 20
def RATE_LIMIT_WINDOW : Int := 10
def BRUTE_FORCE_ATTEMPTS : Nat := 5
def BRUTE_FORCE_WINDOW : Int := 300
def DIR_SCAN_404S : Nat := 10
def DIR_SCAN_WINDOW : Int := 60
def BLOCK_DURATION_MINUTES : Int := 10

/-- The three in-memory trackers of siteguard_app.py (each a
`defaultdict(list)` from IP to a list of timestamps) together with the
database state. -/
structure AppState where
  ip_request_tracker : String → List Int
  ip_failed_login_tracker : String → List Int
  ip_404_tracker : String → List Int
  db : DBState

/-- Fresh process state: empty trackers, empty tables. -/
def initialState : AppState :=
  ⟨fun _ => [], fun _ => [], fun _ => [], ⟨[], []⟩⟩

/-- Result of the before_request hook: let the request proceed, or
`abort(403, msg)`. -/
inductive GateDecision
  | allow
  | abort403 (msg : String)
deriving DecidableEq

/-- Result of the after_request hook: pass the response through, or
replace it by `abort(403, msg)`. -/
inductive RespOutcome
  | pass
  | abort403 (msg : String)
deriving DecidableEq

/-- The test `request.path.startswith` applied to the dashboard route
`/siteguard_dashboard`, modelled as a character-list prefix test. -/
def pathStartsWithDashboard (path : String) : Bool :=
  List.isPrefixOf "/siteguard_dashboard".data path.data

/-- The before_request hook `siteguard_analysis` of siteguard_app.py
(success path of the database helpers; the single `now` stands for both
the `time.time()` of the hook and the `datetime.now()` of the helpers). -/
def siteguard_analysis (ip path : String) (now : Int) (s : AppState) :
    AppState × GateDecision :=
  if pathStartsWithDashboard path then (s, .allow)
  else
    let chk := is_ip_blocked_run ip now s.db
    if chk.2 then
      ({ s with db := chk.1 },
       .abort403 "Your IP address has been temporarily blocked due to suspicious activity.")
    else
      let request_times := s.ip_request_tracker ip
      let valid_request_times :=
        request_times.filter (fun t => now - t < RATE_LIMIT_WINDOW)
      if valid_request_times.length > RATE_LIMIT_REQUESTS then
        let db2 := block_ip_run ip "Rate Limit (DoS)" BLOCK_DURATION_MINUTES now chk.1
        ({ s with
            db := db2
            ip_request_tracker := fun k => if k = ip then [] else s.ip_request_tracker k },
         .abort403 "Rate limit exceeded. Your IP is blocked.")
      else
        ({ s with
            db := chk.1
            ip_request_tracker := fun k =>
              if k = ip then valid_request_times ++ [now] else s.ip_request_tracker k },
         .allow)

/-- Block 4 of the after_request hook: the 404 directory-scan check. -/
def scanCheck404 (ip path : String) (status : Nat) (now : Int) (s : AppState) :
    AppState × RespOutcome :=
  if status = 404 then
    let scan_times := s.ip_404_tracker ip
    let valid_scan_times := scan_times.filter (fun t => now - t < DIR_SCAN_WINDOW)
    if valid_scan_times.length > DIR_SCAN_404S then
      let db1 := block_ip_run ip "Directory Scan (404s)" BLOCK_DURATION_MINUTES now s.db
      ({ s with
          db := db1
          ip_404_tracker := fun k => if k = ip then [] else s.ip_404_tracker k },
       .abort403 "Too many 404s (Not Found). Your IP is blocked.")
    else
      let s1 := { s with
        ip_404_tracker := fun k =>
          if k = ip then valid_scan_times ++ [now] else s.ip_404_tracker k }
      ({ s1 with db := log_suspicious_activity_run ip "Page Not Found (404)" path now s1.db },
       .pass)
  else (s, .pass)

/-- The after_request hook `siteguard_response_analysis` of
siteguard_app.py: the brute-force check (block 3) followed, when it does
not abort, by the 404 check (block 4). -/
def siteguard_response_analysis (ip path method : String) (status : Nat)
    (now : Int) (s : AppState) : AppState × RespOutcome :=
  if pathStartsWithDashboard path then (s, .pass)
  else if path = "/login" ∧ method = "POST" ∧ status = 401 then
    let login_times := s.ip_failed_login_tracker ip
    let valid_login_times :=
      login_times.filter (fun t => now - t < BRUTE_FORCE_WINDOW)
    if valid_login_times.length > BRUTE_FORCE_ATTEMPTS then
      let db1 := block_ip_run ip "Brute Force" BLOCK_DURATION_MINUTES now s.db
      ({ s with
          db := db1
          ip_failed_login_tracker := fun k => if k = ip then [] else s.ip_failed_login_tracker k },
       .abort403 "Too many failed login attempts. Your IP is blocked.")
    else
      let s1 := { s with
        ip_failed_login_tracker := fun k =>
          if k = ip then valid_login_times ++ [now] else s.ip_failed_login_tracker k }
      let s2 := { s1 with db := log_suspicious_activity_run ip "Failed Login" path now s1.db }
      scanCheck404 ip path status now s2
  else scanCheck404 ip path status now s

/-- Run the before_request hook on a sequence of requests from one IP to
one path, at the given timestamps, threading the state. -/
def runRequests (ip path : String) (times : List Int) (s : AppState) :
    AppState × List GateDecision :=
  match times with
  | [] => (s, [])
  | t :: rest =>
    let r := siteguard_analysis ip path t s
    let rr := runRequests ip path rest r.1
    (rr.1, r.2 :: rr.2)

/-- Run the after_request hook on a sequence of responses with fixed
ip/path/method/status, at the given timestamps, threading the state. -/
def runResponses (ip path method : String) (status : Nat) (times : List Int)
    (s : AppState) : AppState × List RespOutcome :=
  match times with
  | [] => (s, [])
  | t :: rest =>
    let r := siteguard_response_analysis ip path method status t s
    let rr := runResponses ip path method status rest r.1
    (rr.1, r.2 :: rr.2)

/-! Helper lemmas. -/

/-- Unfolding of the success path of `block_ip`. -/
theorem block_ip_run_eq (ip reason : String) (minutes now : Int) (db : DBState) :
    block_ip_run ip reason minutes now db =
      ⟨⟨ip, now + 60 * minutes, reason⟩ ::
          db.blocked_ips.filter (fun r => r.ip_address != ip),
        db.suspicious_logs ++ [⟨ip, now, "IP BLOCKED: " ++ reason, "N/A"⟩]⟩ :=
  rfl

/-- Ledger component of the success path of `block_ip`. -/
theorem block_ip_run_blocked_ips (ip reason : String) (minutes now : Int)
    (db : DBState) :
    (block_ip_run ip reason minutes now db).blocked_ips
      = ⟨ip, now + 60 * minutes, reason⟩ ::
          db.blocked_ips.filter (fun r => r.ip_address != ip) :=
  rfl

/-- Audit-log component of the success path of `block_ip`. -/
theorem block_ip_run_suspicious_logs (ip reason : String) (minutes now : Int)
    (db : DBState) :
    (block_ip_run ip reason minutes now db).suspicious_logs
      = db.suspicious_logs ++ [⟨ip, now, "IP BLOCKED: " ++ reason, "N/A"⟩] :=
  rfl

/-- No row with key `ip` survives the DELETE of `remove_expired_block`. -/
theorem remove_expired_block_find?_eq_none (ip : String) (db : DBState) :
    (remove_expired_block ip db).blocked_ips.find? (fun b => b.ip_address == ip)
      = none := by
  refine List.find?_eq_none.mpr ?_
  intro x hx
  have hmem := List.mem_filter.mp hx
  simpa using hmem.2

/-- An empty ledger never reports a block. -/
theorem is_ip_blocked_run_of_empty (ip : String) (now : Int) (db : DBState)
    (h : db.blocked_ips = []) : is_ip_blocked_run ip now db = (db, false) := by
  simp [is_ip_blocked_run, h]

/-- A ledger whose row for `ip` is still active reports a block. -/
theorem is_ip_blocked_run_active (ip : String) (now : Int) (db : DBState)
    (r : BlockRecord)
    (hfind : db.blocked_ips.find? (fun b => b.ip_address == ip) = some r)
    (hact : now < r.blocked_until) :
    is_ip_blocked_run ip now db = (db, true) := by
  simp only [is_ip_blocked_run, hfind]
  rw [if_pos hact]

/-- One-step unfolding of `runRequests`. -/
theorem runRequests_cons (ip path : String) (t : Int) (rest : List Int)
    (s : AppState) :
    runRequests ip path (t :: rest) s =
      ((runRequests ip path rest (siteguard_analysis ip path t s).1).1,
        (siteguard_analysis ip path t s).2 ::
          (runRequests ip path rest (siteguard_analysis ip path t s).1).2) :=
  rfl

/-- One-step unfolding of `runResponses`. -/
theorem runResponses_cons (ip path method : String) (status : Nat) (t : Int)
    (rest : List Int) (s : AppState) :
    runResponses ip path method status (t :: rest) s =
      ((runResponses ip path method status rest
          (siteguard_response_analysis ip path method status t s).1).1,
        (siteguard_response_analysis ip path method status t s).2 ::
          (runResponses ip path method status rest
            (siteguard_response_analysis ip path method status t s).1).2) :=
  rfl

/-- The before_request hook on a non-dashboard request from an unblocked
identity whose in-window count is within the limit: the request is allowed
and its timestamp recorded. -/
theorem siteguard_analysis_allow_step (ip path : String) (now : Int)
    (s : AppState)
    (hpath : pathStartsWithDashboard path = false)
    (hdb : s.db.blocked_ips = [])
    (hlen : ((s.ip_request_tracker ip).filter
        (fun t => now - t < RATE_LIMIT_WINDOW)).length ≤ RATE_LIMIT_REQUESTS) :
    siteguard_analysis ip path now s =
      ({ s with ip_request_tracker := fun k =>
          if k = ip then (s.ip_request_tracker ip).filter (fun t => now - t < RATE_LIMIT_WINDOW) ++ [now]
          else s.ip_request_tracker k },
        .allow) := by
  simp only [siteguard_analysis, hpath, Bool.false_eq_true, if_false,
    is_ip_blocked_run_of_empty ip now s.db hdb]
  rw [if_neg (not_lt.mpr hlen)]

/-- The before_request hook on a non-dashboard request from an unblocked
identity whose in-window count exceeds the limit: the identity is blocked,
its rate tracker cleared, and the request aborted. -/
theorem siteguard_analysis_block_step (ip path : String) (now : Int)
    (s : AppState)
    (hpath : pathStartsWithDashboard path = false)
    (hdb : s.db.blocked_ips = [])
    (hlen : RATE_LIMIT_REQUESTS < ((s.ip_request_tracker ip).filter
        (fun t => now - t < RATE_LIMIT_WINDOW)).length) :
    siteguard_analysis ip path now s =
      ({ s with
          db := block_ip_run ip "Rate Limit (DoS)" BLOCK_DURATION_MINUTES now s.db
          ip_request_tracker := fun k =>
            if k = ip then [] else s.ip_request_tracker k },
        .abort403 "Rate limit exceeded. Your IP is blocked.") := by
  simp only [siteguard_analysis, hpath, Bool.false_eq_true, if_false,
    is_ip_blocked_run_of_empty ip now s.db hdb]
  rw [if_pos hlen]

/-- The before_request hook on a non-dashboard request from an identity
with an active BlockRecord: rejected immediately. -/
theorem siteguard_analysis_blocked_step (ip path : String) (now : Int)
    (s : AppState)
    (hpath : pathStartsWithDashboard path = false)
    (r : BlockRecord)
    (hfind : s.db.blocked_ips.find? (fun b => b.ip_address == ip) = some r)
    (hact : now < r.blocked_until) :
    siteguard_analysis ip path now s =
      (s, .abort403
        "Your IP address has been temporarily blocked due to suspicious activity.") := by
  simp only [siteguard_analysis, hpath, Bool.false_eq_true, if_false,
    is_ip_blocked_run_active ip now s.db r hfind hact, if_true]

/-- The dashboard path test fails on the login route. -/
theorem pathStartsWithDashboard_login : pathStartsWithDashboard "/login" = false := by
  decide

/-- The after_request hook on a failed login (POST /login returning 401)
whose in-window count is within the limit: the attempt is recorded and a
"Failed Login" audit event appended; the 404 check does not fire. -/
theorem siteguard_response_login_record_step (ip : String) (now : Int)
    (s : AppState)
    (hlen : ((s.ip_failed_login_tracker ip).filter
        (fun t => now - t < BRUTE_FORCE_WINDOW)).length ≤ BRUTE_FORCE_ATTEMPTS) :
    siteguard_response_analysis ip "/login" "POST" 401 now s =
      ({ s with
          ip_failed_login_tracker := fun k =>
            if k = ip then (s.ip_failed_login_tracker ip).filter (fun t => now - t < BRUTE_FORCE_WINDOW) ++ [now]
            else s.ip_failed_login_tracker k
          db := log_suspicious_activity_run ip "Failed Login" "/login" now s.db },
        .pass) := by
  simp only [siteguard_response_analysis, pathStartsWithDashboard_login,
    Bool.false_eq_true, if_false]
  rw [if_pos ⟨trivial, trivial, trivial⟩]
  rw [if_neg (not_lt.mpr hlen)]
  simp only [scanCheck404]
  rw [if_neg (by decide : ¬(401 : Nat) = 404)]


/-- The after_request hook on a failed login whose in-window count exceeds
the limit: the identity is blocked with reason "Brute Force", the login
tracker cleared, and the response replaced by a 403. -/
theorem siteguard_response_login_block_step (ip : String) (now : Int)
    (s : AppState)
    (hlen : BRUTE_FORCE_ATTEMPTS < ((s.ip_failed_login_tracker ip).filter
        (fun t => now - t < BRUTE_FORCE_WINDOW)).length) :
    siteguard_response_analysis ip "/login" "POST" 401 now s =
      ({ s with
          db := block_ip_run ip "Brute Force" BLOCK_DURATION_MINUTES now s.db
          ip_failed_login_tracker := fun k =>
            if k = ip then [] else s.ip_failed_login_tracker k },
        .abort403 "Too many failed login attempts. Your IP is blocked.") := by
  simp only [siteguard_response_analysis, pathStartsWithDashboard_login,
    Bool.false_eq_true, if_false]
  rw [if_pos ⟨trivial, trivial, trivial⟩]
  rw [if_pos hlen]

/-- The after_request hook on a 404 response (to any non-dashboard route)
whose in-window count is within the limit: the 404 is recorded and a
"Page Not Found (404)" audit event appended. -/
theorem siteguard_response_404_record_step (ip path method : String)
    (now : Int) (s : AppState)
    (hpath : pathStartsWithDashboard path = false)
    (hlen : ((s.ip_404_tracker ip).filter
        (fun t => now - t < DIR_SCAN_WINDOW)).length ≤ DIR_SCAN_404S) :
    siteguard_response_analysis ip path method 404 now s =
      ({ s with
          ip_404_tracker := fun k =>
            if k = ip then (s.ip_404_tracker ip).filter (fun t => now - t < DIR_SCAN_WINDOW) ++ [now]
            else s.ip_404_tracker k
          db := log_suspicious_activity_run ip "Page Not Found (404)" path now s.db },
        .pass) := by
  simp only [siteguard_response_analysis, hpath, Bool.false_eq_true, if_false]
  rw [if_neg (fun h => by exact absurd h.2.2 (by decide))]
  simp only [scanCheck404, if_true]
  rw [if_neg (not_lt.mpr hlen)]

/-- The after_request hook on a 404 response whose in-window count exceeds
the limit: the identity is blocked with reason "Directory Scan (404s)",
the 404 tracker cleared, and the response replaced by a 403. -/
theorem siteguard_response_404_block_step (ip path method : String)
    (now : Int) (s : AppState)
    (hpath : pathStartsWithDashboard path = false)
    (hlen : DIR_SCAN_404S < ((s.ip_404_tracker ip).filter
        (fun t => now - t < DIR_SCAN_WINDOW)).length) :
    siteguard_response_analysis ip path method 404 now s =
      ({ s with
          db := block_ip_run ip "Directory Scan (404s)" BLOCK_DURATION_MINUTES now s.db
          ip_404_tracker := fun k => if k = ip then [] else s.ip_404_tracker k },
        .abort403 "Too many 404s (Not Found). Your IP is blocked.") := by
  simp only [siteguard_response_analysis, hpath, Bool.false_eq_true, if_false]
  rw [if_neg (fun h => by exact absurd h.2.2 (by decide))]
  simp only [scanCheck404, if_true]
  rw [if_pos hlen]

/-- If every request in `times` observes at most `RATE_LIMIT_REQUESTS`
events in its trailing rate window (counting itself and the prior tracker
contents `l`), the whole run is allowed, the tracker accumulates only a
sublist of `l ++ times`, and the database is untouched. -/
theorem runRequests_allow_of_bounded (times : List Int) :
    ∀ (l : List Int) (ip path : String) (s : AppState),
      pathStartsWithDashboard path = false →
      s.db.blocked_ips = [] →
      s.ip_request_tracker ip = l →
      (∀ (k : Nat) (hk : k < times.length),
        ((l ++ times.take (k + 1)).filter
            (fun u => times.get ⟨k, hk⟩ - u < RATE_LIMIT_WINDOW)).length
          ≤ RATE_LIMIT_REQUESTS) →
      (runRequests ip path times s).2 = List.replicate times.length .allow ∧
      List.Sublist ((runRequests ip path times s).1.ip_request_tracker ip) (l ++ times) ∧
      (runRequests ip path times s).1.db = s.db := by
  induction times with
  | nil =>
    intro l ip path s _ _ htr _
    exact ⟨rfl, by simp [runRequests, htr], rfl⟩
  | cons t rest ih =>
    intro l ip path s hpath hdb htr hcount
    have h0 : ((l ++ [t]).filter
        (fun u => t - u < RATE_LIMIT_WINDOW)).length ≤ RATE_LIMIT_REQUESTS :=
      hcount 0 (by simp)
    have hlent : ((s.ip_request_tracker ip).filter
        (fun u => t - u < RATE_LIMIT_WINDOW)).length ≤ RATE_LIMIT_REQUESTS := by
      rw [htr]
      exact le_trans
        (List.Sublist.length_le ((List.sublist_append_left l [t]).filter _)) h0
    have hstep := siteguard_analysis_allow_step ip path t s hpath hdb hlent
    have key : runRequests ip path (t :: rest) s =
        ((runRequests ip path rest
            ({ s with ip_request_tracker := fun k =>
                if k = ip then (s.ip_request_tracker ip).filter (fun u => t - u < RATE_LIMIT_WINDOW) ++ [t]
                else s.ip_request_tracker k })).1,
          GateDecision.allow ::
            (runRequests ip path rest
              ({ s with ip_request_tracker := fun k =>
                  if k = ip then (s.ip_request_tracker ip).filter (fun u => t - u < RATE_LIMIT_WINDOW) ++ [t]
                  else s.ip_request_tracker k })).2) := by
      rw [runRequests_cons, hstep]
    have hcount' : ∀ (k : Nat) (hk : k < rest.length),
        (((l.filter (fun u => t - u < RATE_LIMIT_WINDOW) ++ [t])
            ++ rest.take (k + 1)).filter
              (fun u => rest.get ⟨k, hk⟩ - u < RATE_LIMIT_WINDOW)).length
          ≤ RATE_LIMIT_REQUESTS := by
      intro k hk
      have h1 : ((l ++ (t :: rest.take (k + 1))).filter
          (fun u => rest.get ⟨k, hk⟩ - u < RATE_LIMIT_WINDOW)).length
            ≤ RATE_LIMIT_REQUESTS :=
        hcount (k + 1) (by simpa using Nat.succ_lt_succ hk)
      refine le_trans (List.Sublist.length_le (List.Sublist.filter _ ?_)) h1
      have hsub : List.Sublist ((l.filter (fun u => t - u < RATE_LIMIT_WINDOW) ++ [t])
          ++ rest.take (k + 1)) ((l ++ [t]) ++ rest.take (k + 1)) :=
        ((List.filter_sublist l).append (List.Sublist.refl [t])).append
          (List.Sublist.refl _)
      simpa using hsub
    obtain ⟨ihd, ihs, ihdb⟩ :=
      ih (l.filter (fun u => t - u < RATE_LIMIT_WINDOW) ++ [t]) ip path
        ({ s with ip_request_tracker := fun k =>
            if k = ip then (s.ip_request_tracker ip).filter (fun u => t - u < RATE_LIMIT_WINDOW) ++ [t]
            else s.ip_request_tracker k })
        hpath hdb (by simp [htr]) hcount'
    refine ⟨?_, ?_, ?_⟩
    · rw [key, List.length_cons, List.replicate_succ]
      exact congrArg (List.cons GateDecision.allow) ihd
    · rw [key]
      refine List.Sublist.trans ihs ?_
      have : List.Sublist ((l.filter (fun u => t - u < RATE_LIMIT_WINDOW) ++ [t]) ++ rest)
          ((l ++ [t]) ++ rest) :=
        ((List.filter_sublist l).append (List.Sublist.refl [t])).append
          (List.Sublist.refl rest)
      simpa using this
    · rw [key]
      exact ihdb

/-- Splitting a request run at an arbitrary point. -/
theorem runRequests_append (ip path : String) (ts₁ ts₂ : List Int)
    (s : AppState) :
    runRequests ip path (ts₁ ++ ts₂) s =
      ((runRequests ip path ts₂ (runRequests ip path ts₁ s).1).1,
        (runRequests ip path ts₁ s).2
          ++ (runRequests ip path ts₂ (runRequests ip path ts₁ s).1).2) := by
  induction ts₁ generalizing s with
  | nil => rfl
  | cons t rest ih =>
    simp only [List.cons_append, runRequests_cons, ih, List.nil_append]

/-- Splitting a response run at an arbitrary point. -/
theorem runResponses_append (ip path method : String) (status : Nat)
    (ts₁ ts₂ : List Int) (s : AppState) :
    runResponses ip path method status (ts₁ ++ ts₂) s =
      ((runResponses ip path method status ts₂
          (runResponses ip path method status ts₁ s).1).1,
        (runResponses ip path method status ts₁ s).2
          ++ (runResponses ip path method status ts₂
              (runResponses ip path method status ts₁ s).1).2) := by
  induction ts₁ generalizing s with
  | nil => rfl
  | cons t rest ih =>
    simp only [List.cons_append, runResponses_cons, ih, List.nil_append]

/-- If the prior tracker contents `l` and all of `times` lie inside one rate
window in chronological order, and their total count stays within the limit,
every request is allowed, the rate tracker for the identity ends as exactly
`l ++ times`, and nothing else changes. -/
theorem runRequests_allow_exact (times : List Int) :
    ∀ (l : List Int) (ip path : String) (s : AppState),
      pathStartsWithDashboard path = false →
      s.db.blocked_ips = [] →
      s.ip_request_tracker ip = l →
      (l ++ times).Pairwise (fun u v => u ≤ v ∧ v - u < RATE_LIMIT_WINDOW) →
      l.length + times.length ≤ RATE_LIMIT_REQUESTS + 1 →
      (runRequests ip path times s).2 = List.replicate times.length .allow ∧
      (runRequests ip path times s).1.ip_request_tracker ip = l ++ times ∧
      (∀ j, j ≠ ip → (runRequests ip path times s).1.ip_request_tracker j
        = s.ip_request_tracker j) ∧
      (runRequests ip path times s).1.ip_failed_login_tracker
        = s.ip_failed_login_tracker ∧
      (runRequests ip path times s).1.ip_404_tracker = s.ip_404_tracker ∧
      (runRequests ip path times s).1.db = s.db := by
  induction times with
  | nil =>
    intro l ip path s _ _ htr _ _
    exact ⟨rfl, by simpa using htr, fun _ _ => rfl, rfl, rfl, rfl⟩
  | cons t rest ih =>
    intro l ip path s hpath hdb htr hpw hlen
    have hlt : ∀ u ∈ l, u ≤ t ∧ t - u < RATE_LIMIT_WINDOW := by
      intro u hu
      exact (List.pairwise_append.mp hpw).2.2 u hu t (by simp)
    have hfl : l.filter (fun u => t - u < RATE_LIMIT_WINDOW) = l := by
      rw [List.filter_eq_self]
      intro u hu
      simpa using (hlt u hu).2
    have hlen0 : ((s.ip_request_tracker ip).filter
        (fun u => t - u < RATE_LIMIT_WINDOW)).length ≤ RATE_LIMIT_REQUESTS := by
      rw [htr, hfl]
      simp only [List.length_cons] at hlen
      omega
    have hstep := siteguard_analysis_allow_step ip path t s hpath hdb hlen0
    have key : runRequests ip path (t :: rest) s =
        ((runRequests ip path rest
            ({ s with ip_request_tracker := fun k =>
                if k = ip then (s.ip_request_tracker ip).filter (fun u => t - u < RATE_LIMIT_WINDOW) ++ [t]
                else s.ip_request_tracker k })).1,
          GateDecision.allow ::
            (runRequests ip path rest
              ({ s with ip_request_tracker := fun k =>
                  if k = ip then (s.ip_request_tracker ip).filter (fun u => t - u < RATE_LIMIT_WINDOW) ++ [t]
                  else s.ip_request_tracker k })).2) := by
      rw [runRequests_cons, hstep]
    have hpw1 : ((l ++ [t]) ++ rest).Pairwise
        (fun u v => u ≤ v ∧ v - u < RATE_LIMIT_WINDOW) := by
      rw [List.append_assoc, List.singleton_append]
      exact hpw
    have hlen1 : (l ++ [t]).length + rest.length ≤ RATE_LIMIT_REQUESTS + 1 := by
      simp only [List.length_cons] at hlen
      simp only [List.length_append, List.length_cons, List.length_nil]
      omega
    obtain ⟨ihd, ihtr, ihoth, ihlog, ih404, ihdb⟩ :=
      ih (l ++ [t]) ip path
        ({ s with ip_request_tracker := fun k =>
            if k = ip then (s.ip_request_tracker ip).filter (fun u => t - u < RATE_LIMIT_WINDOW) ++ [t]
            else s.ip_request_tracker k })
        hpath hdb (by simp [htr, hfl]) hpw1 hlen1
    refine ⟨?_, ?_, ?_, ?_, ?_, ?_⟩
    · rw [key, List.length_cons, List.replicate_succ]
      exact congrArg (List.cons GateDecision.allow) ihd
    · rw [key]
      exact ihtr.trans (by simp)
    · intro j hj
      rw [key]
      exact (ihoth j hj).trans (by simp [hj])
    · rw [key]
      exact ihlog
    · rw [key]
      exact ih404
    · rw [key]
      exact ihdb

/-- If the prior failed-login tracker contents `l` and all of `times` lie
inside one brute-force window in chronological order, and their total count
stays within the limit, every failed login passes through, is recorded, and
appends a "Failed Login" audit event; the ledger is untouched. -/
theorem runResponses_login_exact (times : List Int) :
    ∀ (l : List Int) (ip : String) (s : AppState),
      s.ip_failed_login_tracker ip = l →
      (l ++ times).Pairwise (fun u v => u ≤ v ∧ v - u < BRUTE_FORCE_WINDOW) →
      l.length + times.length ≤ BRUTE_FORCE_ATTEMPTS + 1 →
      (runResponses ip "/login" "POST" 401 times s).2
        = List.replicate times.length .pass ∧
      (runResponses ip "/login" "POST" 401 times s).1.ip_failed_login_tracker ip
        = l ++ times ∧
      (runResponses ip "/login" "POST" 401 times s).1.db.blocked_ips
        = s.db.blocked_ips ∧
      (runResponses ip "/login" "POST" 401 times s).1.db.suspicious_logs
        = s.db.suspicious_logs
          ++ times.map (fun t => ⟨ip, t, "Failed Login", "/login"⟩) := by
  induction times with
  | nil =>
    intro l ip s htr _ _
    exact ⟨rfl, by simpa using htr, rfl, by simp [runResponses]⟩
  | cons t rest ih =>
    intro l ip s htr hpw hlen
    have hlt : ∀ u ∈ l, u ≤ t ∧ t - u < BRUTE_FORCE_WINDOW := by
      intro u hu
      exact (List.pairwise_append.mp hpw).2.2 u hu t (by simp)
    have hfl : l.filter (fun u => t - u < BRUTE_FORCE_WINDOW) = l := by
      rw [List.filter_eq_self]
      intro u hu
      simpa using (hlt u hu).2
    have hlen0 : ((s.ip_failed_login_tracker ip).filter
        (fun u => t - u < BRUTE_FORCE_WINDOW)).length ≤ BRUTE_FORCE_ATTEMPTS := by
      rw [htr, hfl]
      simp only [List.length_cons] at hlen
      omega
    have hstep := siteguard_response_login_record_step ip t s hlen0
    have key : runResponses ip "/login" "POST" 401 (t :: rest) s =
        ((runResponses ip "/login" "POST" 401 rest
            ({ s with
                ip_failed_login_tracker := fun k =>
                  if k = ip then (s.ip_failed_login_tracker ip).filter (fun u => t - u < BRUTE_FORCE_WINDOW) ++ [t]
                  else s.ip_failed_login_tracker k
                db := log_suspicious_activity_run ip "Failed Login" "/login" t s.db })).1,
          RespOutcome.pass ::
            (runResponses ip "/login" "POST" 401 rest
              ({ s with
                  ip_failed_login_tracker := fun k =>
                    if k = ip then (s.ip_failed_login_tracker ip).filter (fun u => t - u < BRUTE_FORCE_WINDOW) ++ [t]
                    else s.ip_failed_login_tracker k
                  db := log_suspicious_activity_run ip "Failed Login" "/login" t s.db })).2) := by
      rw [runResponses_cons, hstep]
    have hpw1 : ((l ++ [t]) ++ rest).Pairwise
        (fun u v => u ≤ v ∧ v - u < BRUTE_FORCE_WINDOW) := by
      rw [List.append_assoc, List.singleton_append]
      exact hpw
    have hlen1 : (l ++ [t]).length + rest.length ≤ BRUTE_FORCE_ATTEMPTS + 1 := by
      simp only [List.length_cons] at hlen
      simp only [List.length_append, List.length_cons, List.length_nil]
      omega
    obtain ⟨ihd, ihtr, ihblk, ihlogs⟩ :=
      ih (l ++ [t]) ip
        ({ s with
            ip_failed_login_tracker := fun k =>
              if k = ip then (s.ip_failed_login_tracker ip).filter (fun u => t - u < BRUTE_FORCE_WINDOW) ++ [t]
              else s.ip_failed_login_tracker k
            db := log_suspicious_activity_run ip "Failed Login" "/login" t s.db })
        (by simp [htr, hfl]) hpw1 hlen1
    refine ⟨?_, ?_, ?_, ?_⟩
    · rw [key, List.length_cons, List.replicate_succ]
      exact congrArg (List.cons RespOutcome.pass) ihd
    · rw [key]
      exact ihtr.trans (by simp)
    · rw [key]
      exact ihblk
    · rw [key]
      refine ihlogs.trans ?_
      simp [log_suspicious_activity_run]

/-- Boundary of the brute-force heuristic: from a fresh failed-login
tracker, `BRUTE_FORCE_ATTEMPTS + 1` failed logins inside one window all
pass (each appending a "Failed Login" audit event), and one more failed
login inside the window is turned into a 403, upserts the "Brute Force"
BlockRecord, appends the block audit event, and resets the tracker. -/
theorem login_boundary_trace (ip : String) (ts : List Int) (t7 : Int)
    (s : AppState)
    (htr : s.ip_failed_login_tracker ip = [])
    (hpw : (ts ++ [t7]).Pairwise (fun u v => u ≤ v ∧ v - u < BRUTE_FORCE_WINDOW))
    (hts : ts.length = BRUTE_FORCE_ATTEMPTS + 1) :
    (runResponses ip "/login" "POST" 401 (ts ++ [t7]) s).2
      = List.replicate (BRUTE_FORCE_ATTEMPTS + 1) RespOutcome.pass
        ++ [RespOutcome.abort403 "Too many failed login attempts. Your IP is blocked."] ∧
    (runResponses ip "/login" "POST" 401 (ts ++ [t7]) s).1.db.blocked_ips
      = ⟨ip, t7 + 60 * BLOCK_DURATION_MINUTES, "Brute Force"⟩ ::
          s.db.blocked_ips.filter (fun r => r.ip_address != ip) ∧
    (runResponses ip "/login" "POST" 401 (ts ++ [t7]) s).1.db.suspicious_logs
      = s.db.suspicious_logs ++ ts.map (fun t => ⟨ip, t, "Failed Login", "/login"⟩)
        ++ [⟨ip, t7, "IP BLOCKED: Brute Force", "N/A"⟩] ∧
    (runResponses ip "/login" "POST" 401 (ts ++ [t7]) s).1.ip_failed_login_tracker ip
      = [] := by
  have hpwts : ts.Pairwise (fun u v => u ≤ v ∧ v - u < BRUTE_FORCE_WINDOW) :=
    (List.pairwise_append.mp hpw).1
  obtain ⟨hd1, htr1, hblk1, hlogs1⟩ :=
    runResponses_login_exact ts [] ip s htr hpwts (by simp [hts])
  have htr1' : (runResponses ip "/login" "POST" 401 ts s).1.ip_failed_login_tracker ip
      = ts := htr1.trans (List.nil_append ts)
  have hwin : ∀ u ∈ ts, u ≤ t7 ∧ t7 - u < BRUTE_FORCE_WINDOW := by
    intro u hu
    exact (List.pairwise_append.mp hpw).2.2 u hu t7 (by simp)
  have hlen2 : BRUTE_FORCE_ATTEMPTS <
      (((runResponses ip "/login" "POST" 401 ts s).1.ip_failed_login_tracker ip).filter
        (fun u => t7 - u < BRUTE_FORCE_WINDOW)).length := by
    rw [htr1']
    rw [List.filter_eq_self.mpr (fun u hu => by simpa using (hwin u hu).2)]
    omega
  have hstep := siteguard_response_login_block_step ip t7
    (runResponses ip "/login" "POST" 401 ts s).1 hlen2
  have hfin : (runResponses ip "/login" "POST" 401 [t7]
      (runResponses ip "/login" "POST" 401 ts s).1).1 =
      { (runResponses ip "/login" "POST" 401 ts s).1 with
          db := block_ip_run ip "Brute Force" BLOCK_DURATION_MINUTES t7
            (runResponses ip "/login" "POST" 401 ts s).1.db
          ip_failed_login_tracker := fun k =>
            if k = ip then []
            else (runResponses ip "/login" "POST" 401 ts s).1.ip_failed_login_tracker k } := by
    rw [runResponses_cons, hstep]
    rfl
  have hD2 : (runResponses ip "/login" "POST" 401 [t7]
      (runResponses ip "/login" "POST" 401 ts s).1).2
      = [RespOutcome.abort403 "Too many failed login attempts. Your IP is blocked."] := by
    rw [runResponses_cons, hstep]
    rfl
  have hd1' : (runResponses ip "/login" "POST" 401 ts s).2
      = List.replicate (BRUTE_FORCE_ATTEMPTS + 1) RespOutcome.pass := by
    rw [hd1, hts]
  rw [runResponses_append ip "/login" "POST" 401 ts [t7] s]
  refine ⟨?_, ?_, ?_, ?_⟩
  · rw [hd1', hD2]
  · show ((runResponses ip "/login" "POST" 401 [t7]
        (runResponses ip "/login" "POST" 401 ts s).1).1).db.blocked_ips = _
    rw [hfin]
    show (block_ip_run ip "Brute Force" BLOCK_DURATION_MINUTES t7
      (runResponses ip "/login" "POST" 401 ts s).1.db).blocked_ips = _
    rw [block_ip_run_blocked_ips, hblk1]
  · show ((runResponses ip "/login" "POST" 401 [t7]
        (runResponses ip "/login" "POST" 401 ts s).1).1).db.suspicious_logs = _
    rw [hfin]
    show (block_ip_run ip "Brute Force" BLOCK_DURATION_MINUTES t7
      (runResponses ip "/login" "POST" 401 ts s).1.db).suspicious_logs = _
    rw [block_ip_run_suspicious_logs, hlogs1]
    rfl
  · show ((runResponses ip "/login" "POST" 401 [t7]
        (runResponses ip "/login" "POST" 401 ts s).1).1).ip_failed_login_tracker ip = _
    rw [hfin]
    simp

/-- Boundary of the rate heuristic: starting from a fresh rate tracker and
an empty ledger, `RATE_LIMIT_REQUESTS + 1` requests inside one window are
all allowed, and one more request inside the window is rejected, blocks the
identity, writes the audit row, and resets the tracker. -/
theorem rate_boundary_trace (ip path : String) (ts : List Int) (t2 : Int)
    (s : AppState)
    (hpath : pathStartsWithDashboard path = false)
    (hdb : s.db.blocked_ips = [])
    (htr : s.ip_request_tracker ip = [])
    (hpw : (ts ++ [t2]).Pairwise (fun u v => u ≤ v ∧ v - u < RATE_LIMIT_WINDOW))
    (hts : ts.length = RATE_LIMIT_REQUESTS + 1) :
    (runRequests ip path (ts ++ [t2]) s).2
      = List.replicate (RATE_LIMIT_REQUESTS + 1) GateDecision.allow
        ++ [GateDecision.abort403 "Rate limit exceeded. Your IP is blocked."] ∧
    (runRequests ip path (ts ++ [t2]) s).1.db.blocked_ips
      = [⟨ip, t2 + 60 * BLOCK_DURATION_MINUTES, "Rate Limit (DoS)"⟩] ∧
    (runRequests ip path (ts ++ [t2]) s).1.db.suspicious_logs
      = s.db.suspicious_logs ++ [⟨ip, t2, "IP BLOCKED: Rate Limit (DoS)", "N/A"⟩] ∧
    (runRequests ip path (ts ++ [t2]) s).1.ip_request_tracker ip = [] := by
  have hpwts : ts.Pairwise (fun u v => u ≤ v ∧ v - u < RATE_LIMIT_WINDOW) :=
    (List.pairwise_append.mp hpw).1
  obtain ⟨hd1, htr1, _, _, _, hdb1⟩ :=
    runRequests_allow_exact ts [] ip path s hpath hdb htr hpwts
      (by simp [hts])
  have htr1' : (runRequests ip path ts s).1.ip_request_tracker ip = ts :=
    htr1.trans (List.nil_append ts)
  have hwin : ∀ u ∈ ts, u ≤ t2 ∧ t2 - u < RATE_LIMIT_WINDOW := by
    intro u hu
    exact (List.pairwise_append.mp hpw).2.2 u hu t2 (by simp)
  have hlen2 : RATE_LIMIT_REQUESTS <
      (((runRequests ip path ts s).1.ip_request_tracker ip).filter
        (fun u => t2 - u < RATE_LIMIT_WINDOW)).length := by
    rw [htr1']
    rw [List.filter_eq_self.mpr (fun u hu => by simpa using (hwin u hu).2)]
    omega
  have hdbfin : (runRequests ip path ts s).1.db.blocked_ips = [] := by
    rw [hdb1, hdb]
  have hstep := siteguard_analysis_block_step ip path t2
    (runRequests ip path ts s).1 hpath hdbfin hlen2
  have hfin : (runRequests ip path [t2] (runRequests ip path ts s).1).1 =
      { (runRequests ip path ts s).1 with
          db := block_ip_run ip "Rate Limit (DoS)" BLOCK_DURATION_MINUTES t2
            (runRequests ip path ts s).1.db
          ip_request_tracker := fun k =>
            if k = ip then [] else (runRequests ip path ts s).1.ip_request_tracker k } := by
    rw [runRequests_cons, hstep]
    rfl
  have hD2 : (runRequests ip path [t2] (runRequests ip path ts s).1).2
      = [GateDecision.abort403 "Rate limit exceeded. Your IP is blocked."] := by
    rw [runRequests_cons, hstep]
    rfl
  have hd1' : (runRequests ip path ts s).2
      = List.replicate (RATE_LIMIT_REQUESTS + 1) GateDecision.allow := by
    rw [hd1, hts]
  rw [runRequests_append ip path ts [t2] s]
  refine ⟨?_, ?_, ?_, ?_⟩
  · rw [hd1', hD2]
  · show ((runRequests ip path [t2] (runRequests ip path ts s).1).1).db.blocked_ips = _
    rw [hfin]
    show (block_ip_run ip "Rate Limit (DoS)" BLOCK_DURATION_MINUTES t2
      (runRequests ip path ts s).1.db).blocked_ips = _
    rw [block_ip_run_blocked_ips, hdbfin]
    rfl
  · show ((runRequests ip path [t2] (runRequests ip path ts s).1).1).db.suspicious_logs = _
    rw [hfin]
    show (block_ip_run ip "Rate Limit (DoS)" BLOCK_DURATION_MINUTES t2
      (runRequests ip path ts s).1.db).suspicious_logs = _
    rw [block_ip_run_suspicious_logs, hdb1]
    rfl
  · show ((runRequests ip path [t2] (runRequests ip path ts s).1).1).ip_request_tracker ip = _
    rw [hfin]
    simp

/-- If the prior 404 tracker contents `l` and all of `times` lie inside one
scan window in chronological order, and their total count stays within the
limit, every 404 response passes through and is recorded. -/
theorem runResponses_404_exact (times : List Int) :
    ∀ (l : List Int) (ip path method : String) (s : AppState),
      pathStartsWithDashboard path = false →
      s.ip_404_tracker ip = l →
      (l ++ times).Pairwise (fun u v => u ≤ v ∧ v - u < DIR_SCAN_WINDOW) →
      l.length + times.length ≤ DIR_SCAN_404S + 1 →
      (runResponses ip path method 404 times s).2
        = List.replicate times.length .pass ∧
      (runResponses ip path method 404 times s).1.ip_404_tracker ip
        = l ++ times := by
  induction times with
  | nil =>
    intro l ip path method s _ htr _ _
    exact ⟨rfl, by simpa using htr⟩
  | cons t rest ih =>
    intro l ip path method s hpath htr hpw hlen
    have hlt : ∀ u ∈ l, u ≤ t ∧ t - u < DIR_SCAN_WINDOW := by
      intro u hu
      exact (List.pairwise_append.mp hpw).2.2 u hu t (by simp)
    have hfl : l.filter (fun u => t - u < DIR_SCAN_WINDOW) = l := by
      rw [List.filter_eq_self]
      intro u hu
      simpa using (hlt u hu).2
    have hlen0 : ((s.ip_404_tracker ip).filter
        (fun u => t - u < DIR_SCAN_WINDOW)).length ≤ DIR_SCAN_404S := by
      rw [htr, hfl]
      simp only [List.length_cons] at hlen
      omega
    have hstep := siteguard_response_404_record_step ip path method t s hpath hlen0
    have key : runResponses ip path method 404 (t :: rest) s =
        ((runResponses ip path method 404 rest
            ({ s with
                ip_404_tracker := fun k =>
                  if k = ip then (s.ip_404_tracker ip).filter (fun u => t - u < DIR_SCAN_WINDOW) ++ [t]
                  else s.ip_404_tracker k
                db := log_suspicious_activity_run ip "Page Not Found (404)" path t s.db })).1,
          RespOutcome.pass ::
            (runResponses ip path method 404 rest
              ({ s with
                  ip_404_tracker := fun k =>
                    if k = ip then (s.ip_404_tracker ip).filter (fun u => t - u < DIR_SCAN_WINDOW) ++ [t]
                    else s.ip_404_tracker k
                  db := log_suspicious_activity_run ip "Page Not Found (404)" path t s.db })).2) := by
      rw [runResponses_cons, hstep]
    have hpw1 : ((l ++ [t]) ++ rest).Pairwise
        (fun u v => u ≤ v ∧ v - u < DIR_SCAN_WINDOW) := by
      rw [List.append_assoc, List.singleton_append]
      exact hpw
    have hlen1 : (l ++ [t]).length + rest.length ≤ DIR_SCAN_404S + 1 := by
      simp only [List.length_cons] at hlen
      simp only [List.length_append, List.length_cons, List.length_nil]
      omega
    obtain ⟨ihd, ihtr⟩ :=
      ih (l ++ [t]) ip path method
        ({ s with
            ip_404_tracker := fun k =>
              if k = ip then (s.ip_404_tracker ip).filter (fun u => t - u < DIR_SCAN_WINDOW) ++ [t]
              else s.ip_404_tracker k
            db := log_suspicious_activity_run ip "Page Not Found (404)" path t s.db })
        hpath (by simp [htr, hfl]) hpw1 hlen1
    refine ⟨?_, ?_⟩
    · rw [key, List.length_cons, List.replicate_succ]
      exact congrArg (List.cons RespOutcome.pass) ihd
    · rw [key]
      exact ihtr.trans (by simp)

/-- Boundary of the 404 scan heuristic: from a fresh 404 tracker,
`DIR_SCAN_404S + 1` not-found responses inside one window all pass, and one
more inside the window is turned into a 403. -/
theorem scan_boundary_trace (ip path method : String) (ts : List Int)
    (t12 : Int) (s : AppState)
    (hpath : pathStartsWithDashboard path = false)
    (htr : s.ip_404_tracker ip = [])
    (hpw : (ts ++ [t12]).Pairwise (fun u v => u ≤ v ∧ v - u < DIR_SCAN_WINDOW))
    (hts : ts.length = DIR_SCAN_404S + 1) :
    (runResponses ip path method 404 (ts ++ [t12]) s).2
      = List.replicate (DIR_SCAN_404S + 1) RespOutcome.pass
        ++ [RespOutcome.abort403 "Too many 404s (Not Found). Your IP is blocked."] := by
  have hpwts : ts.Pairwise (fun u v => u ≤ v ∧ v - u < DIR_SCAN_WINDOW) :=
    (List.pairwise_append.mp hpw).1
  obtain ⟨hd1, htr1⟩ :=
    runResponses_404_exact ts [] ip path method s hpath htr hpwts (by simp [hts])
  have htr1' : (runResponses ip path method 404 ts s).1.ip_404_tracker ip = ts :=
    htr1.trans (List.nil_append ts)
  have hwin : ∀ u ∈ ts, u ≤ t12 ∧ t12 - u < DIR_SCAN_WINDOW := by
    intro u hu
    exact (List.pairwise_append.mp hpw).2.2 u hu t12 (by simp)
  have hlen2 : DIR_SCAN_404S <
      (((runResponses ip path method 404 ts s).1.ip_404_tracker ip).filter
        (fun u => t12 - u < DIR_SCAN_WINDOW)).length := by
    rw [htr1']
    rw [List.filter_eq_self.mpr (fun u hu => by simpa using (hwin u hu).2)]
    omega
  have hstep := siteguard_response_404_block_step ip path method t12
    (runResponses ip path method 404 ts s).1 hpath hlen2
  have hD2 : (runResponses ip path method 404 [t12]
      (runResponses ip path method 404 ts s).1).2
      = [RespOutcome.abort403 "Too many 404s (Not Found). Your IP is blocked."] := by
    rw [runResponses_cons, hstep]
    rfl
  have hd1' : (runResponses ip path method 404 ts s).2
      = List.replicate (DIR_SCAN_404S + 1) RespOutcome.pass := by
    rw [hd1, hts]
  rw [runResponses_append ip path method 404 ts [t12] s]
  rw [hd1', hD2]

/-- Pruning to the window and appending the current timestamp keeps an
event list sorted and bounded by the current time. -/
theorem sorted_window_update (l : List Int) (now W : Int)
    (hs : l.Sorted (· ≤ ·)) (hb : ∀ t ∈ l, t ≤ now) :
    (l.filter (fun t => now - t < W) ++ [now]).Sorted (· ≤ ·) ∧
    (∀ t ∈ l.filter (fun t => now - t < W) ++ [now], t ≤ now) := by
  constructor
  · refine List.pairwise_append.mpr ⟨hs.sublist (List.filter_sublist l), ?_, ?_⟩
    · simp
    · intro a ha b hb'
      have hb'' : b = now := by simpa using hb'
      subst hb''
      exact hb a (List.mem_of_mem_filter ha)
  · intro t ht
    rcases List.mem_append.mp ht with h | h
    · exact hb t (List.mem_of_mem_filter h)
    · simp only [List.mem_singleton] at h
      subst h
      exact le_refl _

/-- What the before_request hook can do to the rate list of an identity:
leave it unchanged, prune-and-append, or reset it exactly together with
the rate-limit 403. -/
theorem siteguard_analysis_tracker_cases (ip path : String) (now : Int)
    (s : AppState) :
    (siteguard_analysis ip path now s).1.ip_request_tracker ip
      = s.ip_request_tracker ip ∨
    (siteguard_analysis ip path now s).1.ip_request_tracker ip
      = (s.ip_request_tracker ip).filter (fun t => now - t < RATE_LIMIT_WINDOW)
        ++ [now] ∨
    ((siteguard_analysis ip path now s).1.ip_request_tracker ip = [] ∧
      (siteguard_analysis ip path now s).2
        = .abort403 "Rate limit exceeded. Your IP is blocked.") := by
  by_cases hdash : pathStartsWithDashboard path = true
  · simp only [siteguard_analysis, hdash, if_true]
    exact Or.inl (by simp)
  · have hdashf : pathStartsWithDashboard path = false :=
      Bool.eq_false_iff.mpr (fun h => hdash h)
    simp only [siteguard_analysis, hdashf, Bool.false_eq_true, if_false]
    by_cases hblk : (is_ip_blocked_run ip now s.db).2 = true
    · rw [if_pos hblk]
      exact Or.inl rfl
    · rw [if_neg hblk]
      by_cases hl : ((s.ip_request_tracker ip).filter
          (fun t => now - t < RATE_LIMIT_WINDOW)).length > RATE_LIMIT_REQUESTS
      · rw [if_pos hl]
        exact Or.inr (Or.inr ⟨by simp, rfl⟩)
      · rw [if_neg hl]
        exact Or.inr (Or.inl (by simp))

/-- The 404 check never touches the rate or failed-login trackers. -/
theorem scanCheck404_preserves_other_trackers (ip path : String) (status : Nat)
    (now : Int) (s : AppState) :
    (scanCheck404 ip path status now s).1.ip_failed_login_tracker
      = s.ip_failed_login_tracker ∧
    (scanCheck404 ip path status now s).1.ip_request_tracker
      = s.ip_request_tracker := by
  simp only [scanCheck404]
  split_ifs <;> exact ⟨rfl, rfl⟩

/-- What the 404 check can do to the 404 list of an identity. -/
theorem scanCheck404_tracker_cases (ip path : String) (status : Nat)
    (now : Int) (s : AppState) :
    (scanCheck404 ip path status now s).1.ip_404_tracker ip
      = s.ip_404_tracker ip ∨
    (scanCheck404 ip path status now s).1.ip_404_tracker ip
      = (s.ip_404_tracker ip).filter (fun t => now - t < DIR_SCAN_WINDOW)
        ++ [now] ∨
    ((scanCheck404 ip path status now s).1.ip_404_tracker ip = [] ∧
      (scanCheck404 ip path status now s).2
        = .abort403 "Too many 404s (Not Found). Your IP is blocked.") := by
  simp only [scanCheck404]
  split_ifs
  · exact Or.inr (Or.inr ⟨by simp, rfl⟩)
  · exact Or.inr (Or.inl (by simp))
  · exact Or.inl (by simp)

/-- What the after_request hook can do to the failed-login list of an
identity: leave it unchanged, prune-and-append, or reset it exactly
together with the brute-force 403. -/
theorem siteguard_response_login_tracker_cases (ip path method : String)
    (status : Nat) (now : Int) (s : AppState) :
    (siteguard_response_analysis ip path method status now s).1.ip_failed_login_tracker ip
      = s.ip_failed_login_tracker ip ∨
    (siteguard_response_analysis ip path method status now s).1.ip_failed_login_tracker ip
      = (s.ip_failed_login_tracker ip).filter
          (fun t => now - t < BRUTE_FORCE_WINDOW) ++ [now] ∨
    ((siteguard_response_analysis ip path method status now s).1.ip_failed_login_tracker ip
        = [] ∧
      (siteguard_response_analysis ip path method status now s).2
        = .abort403 "Too many failed login attempts. Your IP is blocked.") := by
  by_cases hdash : pathStartsWithDashboard path = true
  · simp only [siteguard_response_analysis, hdash, if_true]
    exact Or.inl (by simp)
  · have hdashf : pathStartsWithDashboard path = false :=
      Bool.eq_false_iff.mpr (fun h => hdash h)
    simp only [siteguard_response_analysis, hdashf, Bool.false_eq_true, if_false]
    by_cases hcond : path = "/login" ∧ method = "POST" ∧ status = 401
    · rw [if_pos hcond]
      by_cases hl : ((s.ip_failed_login_tracker ip).filter
          (fun t => now - t < BRUTE_FORCE_WINDOW)).length > BRUTE_FORCE_ATTEMPTS
      · rw [if_pos hl]
        exact Or.inr (Or.inr ⟨by simp, rfl⟩)
      · rw [if_neg hl]
        refine Or.inr (Or.inl ?_)
        rw [(scanCheck404_preserves_other_trackers ip path status now _).1]
        simp
    · rw [if_neg hcond]
      rw [(scanCheck404_preserves_other_trackers ip path status now s).1]
      exact Or.inl rfl

/-- What the after_request hook can do to the 404 list of an identity. -/
theorem siteguard_response_404_tracker_cases (ip path method : String)
    (status : Nat) (now : Int) (s : AppState) :
    (siteguard_response_analysis ip path method status now s).1.ip_404_tracker ip
      = s.ip_404_tracker ip ∨
    (siteguard_response_analysis ip path method status now s).1.ip_404_tracker ip
      = (s.ip_404_tracker ip).filter (fun t => now - t < DIR_SCAN_WINDOW)
        ++ [now] ∨
    ((siteguard_response_analysis ip path method status now s).1.ip_404_tracker ip
        = [] ∧
      (siteguard_response_analysis ip path method status now s).2
        = .abort403 "Too many 404s (Not Found). Your IP is blocked.") := by
  by_cases hdash : pathStartsWithDashboard path = true
  · simp only [siteguard_response_analysis, hdash, if_true]
    exact Or.inl (by simp)
  · have hdashf : pathStartsWithDashboard path = false :=
      Bool.eq_false_iff.mpr (fun h => hdash h)
    simp only [siteguard_response_analysis, hdashf, Bool.false_eq_true, if_false]
    by_cases hcond : path = "/login" ∧ method = "POST" ∧ status = 401
    · rw [if_pos hcond]
      by_cases hl : ((s.ip_failed_login_tracker ip).filter
          (fun t => now - t < BRUTE_FORCE_WINDOW)).length > BRUTE_FORCE_ATTEMPTS
      · rw [if_pos hl]
        exact Or.inl rfl
      · rw [if_neg hl]
        exact scanCheck404_tracker_cases ip path status now _
    · rw [if_neg hcond]
      exact scanCheck404_tracker_cases ip path status now s

/-! Claim theorems. -/

set_option maxRecDepth 100000

/-- C1 counterexample: for the failed-login heuristic (N = 5), the
(N+1)th = 6th qualifying event within the window does not trigger the
block: six instantaneous failed logins from a fresh state all pass.  The
claim asserts the 6th already triggers the block; in the code each check
counts only the previously recorded in-window events, so the block fires
one event later. -/
theorem sixth_failed_login_still_permitted_cex :
    (runResponses "10.0.0.1" "/login" "POST" 401 (List.replicate 6 0)
      initialState).2 = List.replicate 6 RespOutcome.pass := by decide

/-- C1 (amended: the comparison is strictly greater-than against the count
of previously recorded in-window events, taken before the current event is
recorded, so for each heuristic with maximum N the (N+1)th qualifying event
within the window is still permitted and the (N+2)th triggers the block):
stated for all three heuristics, for any identity and any event times lying
inside one window in order. -/
theorem strict_threshold_boundary :
    (∀ (ip path : String) (ts : List Int) (t2 : Int) (s : AppState),
      pathStartsWithDashboard path = false →
      s.db.blocked_ips = [] →
      s.ip_request_tracker ip = [] →
      (ts ++ [t2]).Pairwise (fun u v => u ≤ v ∧ v - u < RATE_LIMIT_WINDOW) →
      ts.length = RATE_LIMIT_REQUESTS + 1 →
      (runRequests ip path (ts ++ [t2]) s).2
        = List.replicate (RATE_LIMIT_REQUESTS + 1) GateDecision.allow
          ++ [GateDecision.abort403 "Rate limit exceeded. Your IP is blocked."]) ∧
    (∀ (ip : String) (ts : List Int) (t7 : Int) (s : AppState),
      s.ip_failed_login_tracker ip = [] →
      (ts ++ [t7]).Pairwise (fun u v => u ≤ v ∧ v - u < BRUTE_FORCE_WINDOW) →
      ts.length = BRUTE_FORCE_ATTEMPTS + 1 →
      (runResponses ip "/login" "POST" 401 (ts ++ [t7]) s).2
        = List.replicate (BRUTE_FORCE_ATTEMPTS + 1) RespOutcome.pass
          ++ [RespOutcome.abort403 "Too many failed login attempts. Your IP is blocked."]) ∧
    (∀ (ip path method : String) (ts : List Int) (t12 : Int) (s : AppState),
      pathStartsWithDashboard path = false →
      s.ip_404_tracker ip = [] →
      (ts ++ [t12]).Pairwise (fun u v => u ≤ v ∧ v - u < DIR_SCAN_WINDOW) →
      ts.length = DIR_SCAN_404S + 1 →
      (runResponses ip path method 404 (ts ++ [t12]) s).2
        = List.replicate (DIR_SCAN_404S + 1) RespOutcome.pass
          ++ [RespOutcome.abort403 "Too many 404s (Not Found). Your IP is blocked."]) := by
  refine ⟨?_, ?_, ?_⟩
  · intro ip path ts t2 s hpath hdb htr hpw hts
    exact (rate_boundary_trace ip path ts t2 s hpath hdb htr hpw hts).1
  · intro ip ts t7 s htr hpw hts
    exact (login_boundary_trace ip ts t7 s htr hpw hts).1
  · intro ip path method ts t12 s hpath htr hpw hts
    exact scan_boundary_trace ip path method ts t12 s hpath htr hpw hts

/-- C1 witness: the three boundaries evaluated on concrete instantaneous
event sequences from the fresh state. -/
theorem strict_threshold_boundary_witness :
    (runRequests "7.7.7.1" "/w" (List.replicate 21 0 ++ [0]) initialState).2
      = List.replicate (RATE_LIMIT_REQUESTS + 1) GateDecision.allow
        ++ [GateDecision.abort403 "Rate limit exceeded. Your IP is blocked."] ∧
    (runResponses "7.7.7.2" "/login" "POST" 401 (List.replicate 6 0 ++ [0])
        initialState).2
      = List.replicate (BRUTE_FORCE_ATTEMPTS + 1) RespOutcome.pass
        ++ [RespOutcome.abort403 "Too many failed login attempts. Your IP is blocked."] ∧
    (runResponses "7.7.7.3" "/w" "GET" 404 (List.replicate 11 0 ++ [0])
        initialState).2
      = List.replicate (DIR_SCAN_404S + 1) RespOutcome.pass
        ++ [RespOutcome.abort403 "Too many 404s (Not Found). Your IP is blocked."] :=
  ⟨strict_threshold_boundary.1 "7.7.7.1" "/w" (List.replicate 21 0) 0
      initialState (by decide) rfl rfl (by decide) (by decide),
    strict_threshold_boundary.2.1 "7.7.7.2" (List.replicate 6 0) 0
      initialState rfl (by decide) (by decide),
    strict_threshold_boundary.2.2 "7.7.7.3" "/w" "GET" (List.replicate 11 0) 0
      initialState (by decide) rfl (by decide) (by decide)⟩

/-- C2 counterexample: six consecutive 401 responses to POST /login within
the window from one fresh identity produce no block at all (the ledger is
still empty afterwards) and six — not five — "Failed Login" audit entries.
The claim asserts exactly one "Brute Force" block after six such
responses. -/
theorem six_failed_logins_produce_no_block_cex :
    (runResponses "10.0.0.2" "/login" "POST" 401 (List.replicate 6 0)
      initialState).1.db.blocked_ips = [] ∧
    (runResponses "10.0.0.2" "/login" "POST" 401 (List.replicate 6 0)
      initialState).1.db.suspicious_logs
      = List.replicate 6
          (⟨"10.0.0.2", 0, "Failed Login", "/login"⟩ : SuspiciousEvent) := by
  exact ⟨by decide, by decide⟩

/-- C2 (amended: seven, not six, consecutive 401 responses are needed, and
the first six, not five, are audited): for any identity with a fresh
failed-login tracker and an empty ledger, 7 consecutive 401 responses to
POST on /login within 300 s produce exactly one block, with reason
"Brute Force", and the first 6 of those responses each produce a
"Failed Login" audit entry carrying the request path. -/
theorem brute_force_block_on_7th (ip : String) (ts : List Int) (t7 : Int)
    (s : AppState)
    (hdb : s.db.blocked_ips = [])
    (htr : s.ip_failed_login_tracker ip = [])
    (hpw : (ts ++ [t7]).Pairwise (fun u v => u ≤ v ∧ v - u < BRUTE_FORCE_WINDOW))
    (hts : ts.length = BRUTE_FORCE_ATTEMPTS + 1) :
    (runResponses ip "/login" "POST" 401 (ts ++ [t7]) s).2
      = List.replicate (BRUTE_FORCE_ATTEMPTS + 1) RespOutcome.pass
        ++ [RespOutcome.abort403 "Too many failed login attempts. Your IP is blocked."] ∧
    (runResponses ip "/login" "POST" 401 (ts ++ [t7]) s).1.db.blocked_ips
      = [⟨ip, t7 + 60 * BLOCK_DURATION_MINUTES, "Brute Force"⟩] ∧
    (runResponses ip "/login" "POST" 401 (ts ++ [t7]) s).1.db.suspicious_logs
      = s.db.suspicious_logs ++ ts.map (fun t => ⟨ip, t, "Failed Login", "/login"⟩)
        ++ [⟨ip, t7, "IP BLOCKED: Brute Force", "N/A"⟩] := by
  obtain ⟨h1, h2, h3, _⟩ := login_boundary_trace ip ts t7 s htr hpw hts
  refine ⟨h1, ?_, h3⟩
  rw [h2, hdb]
  rfl

/-- C2 witness: seven instantaneous failed logins from the fresh state
yield exactly one "Brute Force" BlockRecord. -/
theorem brute_force_block_on_7th_witness :
    (runResponses "10.0.0.6" "/login" "POST" 401 (List.replicate 6 0 ++ [0])
      initialState).1.db.blocked_ips
      = [⟨"10.0.0.6", 0 + 60 * BLOCK_DURATION_MINUTES, "Brute Force"⟩] :=
  (brute_force_block_on_7th "10.0.0.6" (List.replicate 6 0) 0 initialState
    rfl rfl (by decide) (by decide)).2.1

/-- C3 counterexample: with the rate threshold 20, the 21st request of an
identity inside one 10 second window is still allowed — the run of 21
instantaneous requests from a fresh state is all-allow — whereas the claim
says the 21st request is rejected with 403.  The block only fires on the
22nd request, because the hook compares the count of previously recorded
in-window timestamps (not including the current request) against the
strict bound. -/
theorem rate_limit_21st_request_allowed_cex :
    (runRequests "10.0.0.3" "/index" (List.replicate 21 0) initialState).2
      = List.replicate 21 GateDecision.allow := by decide

/-- C3 (amended: the blocking request is the 22nd in the window, not the
21st): the 22nd request of an identity within one 10 second window is
rejected with 403; immediately afterwards the BlockRecord
{identity, now + 600 s, "Rate Limit (DoS)"} is the only ledger row, and any
request from that identity before `blocked_until` is rejected by the
pre-request gate with the static blocked message. -/
theorem rate_limit_block_on_22nd (ip path : String) (ts : List Int) (t2 : Int)
    (s : AppState)
    (hpath : pathStartsWithDashboard path = false)
    (hdb : s.db.blocked_ips = [])
    (htr : s.ip_request_tracker ip = [])
    (hpw : (ts ++ [t2]).Pairwise (fun u v => u ≤ v ∧ v - u < RATE_LIMIT_WINDOW))
    (hts : ts.length = RATE_LIMIT_REQUESTS + 1) :
    (runRequests ip path (ts ++ [t2]) s).2
      = List.replicate (RATE_LIMIT_REQUESTS + 1) GateDecision.allow
        ++ [GateDecision.abort403 "Rate limit exceeded. Your IP is blocked."] ∧
    (runRequests ip path (ts ++ [t2]) s).1.db.blocked_ips
      = [⟨ip, t2 + 60 * BLOCK_DURATION_MINUTES, "Rate Limit (DoS)"⟩] ∧
    (∀ t' : Int, t' < t2 + 60 * BLOCK_DURATION_MINUTES →
      (siteguard_analysis ip path t' (runRequests ip path (ts ++ [t2]) s).1).2
        = .abort403
          "Your IP address has been temporarily blocked due to suspicious activity.") := by
  obtain ⟨h1, h2, _, _⟩ := rate_boundary_trace ip path ts t2 s hpath hdb htr hpw hts
  refine ⟨h1, h2, ?_⟩
  intro t' ht'
  exact congrArg Prod.snd
    (siteguard_analysis_blocked_step ip path t' _ hpath
      ⟨ip, t2 + 60 * BLOCK_DURATION_MINUTES, "Rate Limit (DoS)"⟩
      (by rw [h2]; exact List.find?_cons_of_pos _ (by simp)) ht')

/-- C3 witness: 22 instantaneous requests from a fresh state end in a
rejection after 21 allowed requests. -/
theorem rate_limit_block_on_22nd_witness :
    (runRequests "10.0.0.4" "/index" (List.replicate 21 0 ++ [0]) initialState).2
      = List.replicate (RATE_LIMIT_REQUESTS + 1) GateDecision.allow
        ++ [GateDecision.abort403 "Rate limit exceeded. Your IP is blocked."] :=
  (rate_limit_block_on_22nd "10.0.0.4" "/index" (List.replicate 21 0) 0
    initialState (by decide) rfl rfl (by decide) (by decide)).1

/-- C4: an identity with a fresh tracker and no BlockRecord whose requests
never exceed 20 inside any trailing 10 second window (the window ending at
each request, counting that request itself) has every request pass the
pre-request gate with decision allow. -/
theorem within_rate_limit_all_requests_allowed (ip path : String)
    (times : List Int) (s : AppState)
    (hpath : pathStartsWithDashboard path = false)
    (hdb : s.db.blocked_ips = [])
    (htr : s.ip_request_tracker ip = [])
    (hcount : ∀ (k : Nat) (hk : k < times.length),
      ((times.take (k + 1)).filter
          (fun u => times.get ⟨k, hk⟩ - u < RATE_LIMIT_WINDOW)).length
        ≤ RATE_LIMIT_REQUESTS) :
    (runRequests ip path times s).2
      = List.replicate times.length GateDecision.allow :=
  (runRequests_allow_of_bounded times [] ip path s hpath hdb htr hcount).1

/-- C4 witness: three quick requests are all allowed. -/
theorem within_rate_limit_all_requests_allowed_witness :
    (runRequests "10.0.0.5" "/index" [0, 1, 2] initialState).2
      = List.replicate 3 GateDecision.allow :=
  within_rate_limit_all_requests_allowed "10.0.0.5" "/index" [0, 1, 2]
    initialState (by decide) rfl rfl (by decide)

/-- C5: once a BlockRecord with `blocked_until ≤ now` exists for an identity,
the next `is_ip_blocked` lookup returns false and deletes exactly the
record of that identity, and an immediately subsequent lookup (at any time)
also returns false on the unchanged state: expiry is lazy and idempotent. -/
theorem is_ip_blocked_expired_lazy_idempotent (ip : String) (now now2 : Int)
    (db : DBState) (r : BlockRecord)
    (hfind : db.blocked_ips.find? (fun b => b.ip_address == ip) = some r)
    (hexp : r.blocked_until ≤ now) :
    is_ip_blocked_run ip now db = (remove_expired_block ip db, false) ∧
    (remove_expired_block ip db).blocked_ips.find? (fun b => b.ip_address == ip)
      = none ∧
    is_ip_blocked_run ip now2 (remove_expired_block ip db)
      = (remove_expired_block ip db, false) := by
  refine ⟨?_, remove_expired_block_find?_eq_none ip db, ?_⟩
  · simp only [is_ip_blocked_run, hfind]
    rw [if_neg (not_lt.mpr hexp)]
  · simp only [is_ip_blocked_run, remove_expired_block_find?_eq_none ip db]

/-- C5 witness: a concrete expired record (`blocked_until = now`) is
deleted by the lookup that observes it. -/
theorem is_ip_blocked_expired_lazy_idempotent_witness :
    is_ip_blocked_run "a" 5 ⟨[⟨"a", 5, "x"⟩], []⟩
      = (remove_expired_block "a" ⟨[⟨"a", 5, "x"⟩], []⟩, false) :=
  (is_ip_blocked_expired_lazy_idempotent "a" 5 6 ⟨[⟨"a", 5, "x"⟩], []⟩
    ⟨"a", 5, "x"⟩ (by decide) (by decide)).1

/-- C6: evaluating the embedded database helpers at a persistence fault in
the `sqlite3.connect` step itself: both `is_ip_blocked` and
`log_suspicious_activity` let an `UnboundLocalError` (raised by the
`finally: if conn:` clause, `conn` never having been bound) escape to the
caller, instead of failing open / silently dropping the write as the
claim states.  A fault after the connection is bound is handled as
claimed: the check fails open and the write is dropped. -/
theorem connect_fault_escapes_to_caller :
    (is_ip_blocked (some .connect) "1.2.3.4" 0 ⟨[], []⟩).2
      = .error .unboundLocal ∧
    (log_suspicious_activity (some .connect) "1.2.3.4" "Failed Login" "/login" 0
        ⟨[], []⟩).2
      = .error .unboundLocal ∧
    (is_ip_blocked (some .query) "1.2.3.4" 0 ⟨[⟨"1.2.3.4", 99, "x"⟩], []⟩)
      = (⟨[⟨"1.2.3.4", 99, "x"⟩], []⟩, .ok false) ∧
    (log_suspicious_activity (some .query) "1.2.3.4" "Failed Login" "/login" 0
        ⟨[], []⟩)
      = (⟨[], []⟩, .ok ()) :=
  ⟨rfl, rfl, rfl, rfl⟩

/-- C7: on its success path, `block_ip` upserts the single record for the
identity (overwriting any prior record, active or not, so the at most one
record per identity invariant is preserved and exactly one record for the
identity remains), leaves records of other identities untouched, and
appends the `"IP BLOCKED: {reason}"` audit event with the placeholder
path `"N/A"`. -/
theorem block_ip_upsert_and_audit (ip reason : String) (minutes now : Int)
    (db : DBState)
    (hwf : ∀ j : String,
      db.blocked_ips.countP (fun r => r.ip_address == j) ≤ 1) :
    (block_ip_run ip reason minutes now db).blocked_ips.countP
        (fun r => r.ip_address == ip) = 1 ∧
    (∀ j : String, (block_ip_run ip reason minutes now db).blocked_ips.countP
        (fun r => r.ip_address == j) ≤ 1) ∧
    (block_ip_run ip reason minutes now db).blocked_ips.find?
        (fun r => r.ip_address == ip) = some ⟨ip, now + 60 * minutes, reason⟩ ∧
    (∀ r : BlockRecord, r.ip_address ≠ ip →
      (r ∈ (block_ip_run ip reason minutes now db).blocked_ips ↔
        r ∈ db.blocked_ips)) ∧
    (block_ip_run ip reason minutes now db).suspicious_logs
      = db.suspicious_logs ++ [⟨ip, now, "IP BLOCKED: " ++ reason, "N/A"⟩] := by
  have hzero :
      (db.blocked_ips.filter (fun r => r.ip_address != ip)).countP
        (fun r => r.ip_address == ip) = 0 := by
    refine List.countP_eq_zero.mpr ?_
    intro a ha
    simpa using (List.mem_filter.mp ha).2
  refine ⟨?_, ?_, ?_, ?_, block_ip_run_suspicious_logs ip reason minutes now db⟩
  · rw [block_ip_run_blocked_ips, List.countP_cons_of_pos _ _ (by simp), hzero]
  · intro j
    rw [block_ip_run_blocked_ips]
    by_cases hj : j = ip
    · subst hj
      rw [List.countP_cons_of_pos _ _ (by simp), hzero]
    · rw [List.countP_cons_of_neg]
      · exact le_trans ((List.filter_sublist _).countP_le _) (hwf j)
      · simp only [beq_iff_eq]
        exact fun hp => hj hp.symm
  · rw [block_ip_run_blocked_ips, List.find?_cons_of_pos _ (by simp)]
  · intro r hr
    rw [block_ip_run_blocked_ips]
    constructor
    · intro hmem
      rcases List.mem_cons.mp hmem with h | h
      · exact absurd (congrArg BlockRecord.ip_address h) hr
      · exact (List.mem_filter.mp h).1
    · intro hmem
      refine List.mem_cons.mpr (Or.inr (List.mem_filter.mpr ⟨hmem, ?_⟩))
      simpa using hr

/-- C7 witness: blocking a concrete identity on an empty ledger leaves
exactly the fresh record behind. -/
theorem block_ip_upsert_and_audit_witness :
    (block_ip_run "1.1.1.1" "Brute Force" 10 0 ⟨[], []⟩).blocked_ips.find?
        (fun r => r.ip_address == "1.1.1.1")
      = some ⟨"1.1.1.1", 0 + 60 * 10, "Brute Force"⟩ :=
  (block_ip_upsert_and_audit "1.1.1.1" "Brute Force" 10 0 ⟨[], []⟩
    (fun _ => by simp)).2.2.1

/-- C8: a request whose path starts with the dashboard path prefix is allowed
unconditionally by both hooks, with the whole application state (trackers,
block ledger, activity log) returned untouched, whatever the identity, the
volume, the response status or the ledger contents. -/
theorem dashboard_requests_bypass (ip path method : String) (status : Nat)
    (now : Int) (s : AppState) (h : pathStartsWithDashboard path = true) :
    siteguard_analysis ip path now s = (s, .allow) ∧
    siteguard_response_analysis ip path method status now s = (s, .pass) := by
  constructor
  · simp [siteguard_analysis, h]
  · simp [siteguard_response_analysis, h]

/-- C8 witness: a concrete dashboard request on the fresh state. -/
theorem dashboard_requests_bypass_witness :
    siteguard_analysis "1.2.3.4" "/siteguard_dashboard/data" 0 initialState
      = (initialState, .allow) :=
  (dashboard_requests_bypass "1.2.3.4" "/siteguard_dashboard/data" "GET" 200 0
    initialState (by decide)).1

/-- C9: provided the event lists of the identity are sorted and bounded by the
current time (which holds along any real execution, timestamps being taken
from a monotone clock), one invocation of either hook leaves each
(identity, heuristic) list sorted and bounded: the list is either
unchanged, or pruned exactly of its out-of-window entries with the current
timestamp (an upper bound of the remaining entries) appended, or reset to
empty — and a reset comes exactly with the 403 block decision of that
heuristic. -/
theorem tracker_lists_sorted_reset_only_on_block
    (ip path method : String) (status : Nat) (now : Int) (s : AppState)
    (hs1 : (s.ip_request_tracker ip).Sorted (· ≤ ·))
    (hb1 : ∀ t ∈ s.ip_request_tracker ip, t ≤ now)
    (hs2 : (s.ip_failed_login_tracker ip).Sorted (· ≤ ·))
    (hb2 : ∀ t ∈ s.ip_failed_login_tracker ip, t ≤ now)
    (hs3 : (s.ip_404_tracker ip).Sorted (· ≤ ·))
    (hb3 : ∀ t ∈ s.ip_404_tracker ip, t ≤ now) :
    (((siteguard_analysis ip path now s).1.ip_request_tracker ip).Sorted (· ≤ ·) ∧
      (∀ t ∈ (siteguard_analysis ip path now s).1.ip_request_tracker ip, t ≤ now) ∧
      ((siteguard_analysis ip path now s).1.ip_request_tracker ip
          = s.ip_request_tracker ip ∨
        (siteguard_analysis ip path now s).1.ip_request_tracker ip
          = (s.ip_request_tracker ip).filter (fun t => now - t < RATE_LIMIT_WINDOW)
            ++ [now] ∨
        ((siteguard_analysis ip path now s).1.ip_request_tracker ip = [] ∧
          (siteguard_analysis ip path now s).2
            = .abort403 "Rate limit exceeded. Your IP is blocked."))) ∧
    (((siteguard_response_analysis ip path method status now s).1.ip_failed_login_tracker ip).Sorted (· ≤ ·) ∧
      (∀ t ∈ (siteguard_response_analysis ip path method status now s).1.ip_failed_login_tracker ip,
        t ≤ now) ∧
      ((siteguard_response_analysis ip path method status now s).1.ip_failed_login_tracker ip
          = s.ip_failed_login_tracker ip ∨
        (siteguard_response_analysis ip path method status now s).1.ip_failed_login_tracker ip
          = (s.ip_failed_login_tracker ip).filter (fun t => now - t < BRUTE_FORCE_WINDOW)
            ++ [now] ∨
        ((siteguard_response_analysis ip path method status now s).1.ip_failed_login_tracker ip
            = [] ∧
          (siteguard_response_analysis ip path method status now s).2
            = .abort403 "Too many failed login attempts. Your IP is blocked."))) ∧
    (((siteguard_response_analysis ip path method status now s).1.ip_404_tracker ip).Sorted (· ≤ ·) ∧
      (∀ t ∈ (siteguard_response_analysis ip path method status now s).1.ip_404_tracker ip,
        t ≤ now) ∧
      ((siteguard_response_analysis ip path method status now s).1.ip_404_tracker ip
          = s.ip_404_tracker ip ∨
        (siteguard_response_analysis ip path method status now s).1.ip_404_tracker ip
          = (s.ip_404_tracker ip).filter (fun t => now - t < DIR_SCAN_WINDOW)
            ++ [now] ∨
        ((siteguard_response_analysis ip path method status now s).1.ip_404_tracker ip
            = [] ∧
          (siteguard_response_analysis ip path method status now s).2
            = .abort403 "Too many 404s (Not Found). Your IP is blocked."))) := by
  refine ⟨?_, ?_, ?_⟩
  · rcases siteguard_analysis_tracker_cases ip path now s with h | h | ⟨h, hd⟩
    · refine ⟨?_, ?_, Or.inl h⟩
      · rw [h]; exact hs1
      · rw [h]; exact hb1
    · obtain ⟨hsrt, hbd⟩ := sorted_window_update (s.ip_request_tracker ip) now
        RATE_LIMIT_WINDOW hs1 hb1
      refine ⟨?_, ?_, Or.inr (Or.inl h)⟩
      · rw [h]; exact hsrt
      · rw [h]; exact hbd
    · refine ⟨?_, ?_, Or.inr (Or.inr ⟨h, hd⟩)⟩
      · rw [h]; simp
      · rw [h]; simp
  · rcases siteguard_response_login_tracker_cases ip path method status now s with
      h | h | ⟨h, hd⟩
    · refine ⟨?_, ?_, Or.inl h⟩
      · rw [h]; exact hs2
      · rw [h]; exact hb2
    · obtain ⟨hsrt, hbd⟩ := sorted_window_update (s.ip_failed_login_tracker ip) now
        BRUTE_FORCE_WINDOW hs2 hb2
      refine ⟨?_, ?_, Or.inr (Or.inl h)⟩
      · rw [h]; exact hsrt
      · rw [h]; exact hbd
    · refine ⟨?_, ?_, Or.inr (Or.inr ⟨h, hd⟩)⟩
      · rw [h]; simp
      · rw [h]; simp
  · rcases siteguard_response_404_tracker_cases ip path method status now s with
      h | h | ⟨h, hd⟩
    · refine ⟨?_, ?_, Or.inl h⟩
      · rw [h]; exact hs3
      · rw [h]; exact hb3
    · obtain ⟨hsrt, hbd⟩ := sorted_window_update (s.ip_404_tracker ip) now
        DIR_SCAN_WINDOW hs3 hb3
      refine ⟨?_, ?_, Or.inr (Or.inl h)⟩
      · rw [h]; exact hsrt
      · rw [h]; exact hbd
    · refine ⟨?_, ?_, Or.inr (Or.inr ⟨h, hd⟩)⟩
      · rw [h]; simp
      · rw [h]; simp

/-- C9 witness: the rate list of a concrete identity is still sorted after
one allowed request on the fresh state. -/
theorem tracker_lists_sorted_reset_only_on_block_witness :
    ((siteguard_analysis "9.9.9.9" "/p" 5 initialState).1.ip_request_tracker
      "9.9.9.9").Sorted (· ≤ ·) :=
  (tracker_lists_sorted_reset_only_on_block "9.9.9.9" "/p" "GET" 200 5
    initialState (by simp [initialState]) (by simp [initialState])
    (by simp [initialState]) (by simp [initialState])
    (by simp [initialState]) (by simp [initialState])).1.1

/-- C10: if `block_ip` hits a persistence fault in its own try block (at the
connect step or at the upsert/commit step), the call leaves both tables
unchanged: in particular no `"IP BLOCKED:"` audit row is appended, the
audit insert being reached only after the upsert has committed. -/
theorem block_ip_fault_keeps_tables_unchanged (fp : FailPoint)
    (faultLog : Option FailPoint) (ip reason : String) (minutes now : Int)
    (db : DBState) :
    (block_ip (some fp) faultLog ip reason minutes now db).1.blocked_ips
      = db.blocked_ips ∧
    (block_ip (some fp) faultLog ip reason minutes now db).1.suspicious_logs
      = db.suspicious_logs := by
  cases fp <;> exact ⟨rfl, rfl⟩

end Siteguard
